import Mathlib

/-!
Shallow embedding of `backend/core/memory/memory_client.py`: the `MemoryClient`
gateway over the remote mem0 service, its four operations (`search`, `add`,
`get_all`, `delete`), its constructor, and the module-level singleton accessor
`get_memory_client`.

Modelling conventions:
* Python values crossing the remote boundary are modelled by `PyVal`
  (None / bool / int / str / list / dict with string keys).
* The remote client object (`self.client`, an instance of `mem0.MemoryClient`)
  is modelled as a function `respond : RemoteCall → Except String PyVal`; an
  `Except.error` models the call raising an exception.
* Each gateway operation returns its Python return value together with the
  list of remote calls it performed, so that "no network I/O" and
  "at most one remote call" are statable.  `add` additionally returns the
  post-call contents of the caller-supplied metadata object, because the
  Python code may mutate that dict in place.
* Python exceptions inside a `try` block are modelled with `Except`/`Option`;
  a gateway operation itself has a plain (non-`Except`) return type because
  its whole body is wrapped in `try/except Exception` and never propagates.
-/

set_option linter.unusedVariables false

namespace Suna.Memory

/-- Python-style values exchanged with the remote memory service. -/
inductive PyVal where
  | none
  | bool (b : Bool)
  | int (n : Int)
  | str (s : String)
  | list (xs : List PyVal)
  | dict (kvs : List (String × PyVal))

/-- A Python dict with string keys, as an association list (keys unique in
    practice; lookup takes the first occurrence). -/
abbrev PyDict := List (String × PyVal)

/-- Python `d.get(k)` / `d[k]` lookup. -/
def dictGet (d : PyDict) (k : String) : Option PyVal :=
  match d with
  | [] => Option.none
  | (k', v) :: rest => if k' = k then Option.some v else dictGet rest k

/-- Python `k in d`. -/
def dictHasKey (d : PyDict) (k : String) : Bool :=
  match d with
  | [] => false
  | (k', _) :: rest => if k' = k then true else dictHasKey rest k

/-- Python `d[k] = v`: overwrite in place if the key exists, else append. -/
def dictSet (d : PyDict) (k : String) (v : PyVal) : PyDict :=
  match d with
  | [] => [(k, v)]
  | (k', v') :: rest =>
      if k' = k then (k, v) :: rest else (k', v') :: dictSet rest k v

/-- Python truthiness of an `Optional[str]`: truthy iff present and non-empty. -/
def pyTruthyStr (s : Option String) : Bool :=
  match s with
  | Option.some s => s != ""
  | Option.none => false

/-- An `Optional[str]` as the `PyVal` Python passes along (None or the str). -/
def pyOptStr (s : Option String) : PyVal :=
  match s with
  | Option.some s => PyVal.str s
  | Option.none => PyVal.none

/-- Python `len(v)`: defined for str/list/dict, raises `TypeError` (modelled
    as `Option.none`) on None/bool/int. -/
def pyLen (v : PyVal) : Option Nat :=
  match v with
  | PyVal.str s => Option.some s.length
  | PyVal.list xs => Option.some xs.length
  | PyVal.dict kvs => Option.some kvs.length
  | _ => Option.none

/-- A conversation message: a dict with `role` and `content` fields. -/
structure Message where
  role : String
  content : String

/-- One invocation of the underlying `mem0` client, with the exact arguments
    the Python code passes. -/
inductive RemoteCall where
  | search (query : String) (agent_id : Option String) (top_k : Int)
      (filters : PyDict)
  | add (messages : List Message) (user_id : Option String) (metadata : PyDict)
  | get_all (user_id : Option String) (limit : Int)
  | delete (memory_id : String)

/-- The underlying `mem0.MemoryClient` object: an arbitrary behaviour mapping
    each call to a returned value or a raised exception. -/
structure Mem0Client where
  respond : RemoteCall → Except String PyVal

/-- The environment `__init__` runs in: whether `mem0` imported, the value of
    `config.MEMO_API_KEY`, and the (possibly raising) `Mem0Client` constructor. -/
structure InitEnv where
  mem0_available : Bool
  config_MEMO_API_KEY : Option String
  mk_client : Option String → Except String Mem0Client

/-- The gateway's state after construction. -/
structure MemoryClient where
  api_key : Option String
  enabled : Bool
  client : Option Mem0Client

/-- `self.api_key = api_key or config.MEMO_API_KEY`. -/
def resolveApiKey (env : InitEnv) (api_key : Option String) : Option String :=
  match api_key with
  | Option.some s => if s != "" then Option.some s else env.config_MEMO_API_KEY
  | Option.none => env.config_MEMO_API_KEY

/-- `MemoryClient.__init__`: resolve the key, compute
    `enabled = MEM0_AVAILABLE and bool(api_key)`, then try to construct the
    remote client, disabling the gateway on any failure. Never raises. -/
def MemoryClient.init (env : InitEnv) (api_key : Option String) : MemoryClient :=
  let resolved := resolveApiKey env api_key
  let enabled := env.mem0_available && pyTruthyStr resolved
  if !enabled then
    { api_key := resolved, enabled := false, client := Option.none }
  else
    match env.mk_client resolved with
    | Except.ok c =>
        { api_key := resolved, enabled := true, client := Option.some c }
    | Except.error _ =>
        { api_key := resolved, enabled := false, client := Option.none }

/-- `MemoryClient.search`.  Returns the Python return value and the remote
    calls performed.  The local `filters` dict is built exactly as in the
    source but — as in the source — is not the dict passed to the remote
    call, which receives `filters={"user_id": user_id}` and a separate
    `agent_id` argument. The `logger.debug` f-string evaluates
    `len(memories)`, which raises (and is caught) if the extracted value has
    no length. -/
def MemoryClient.search (self : MemoryClient) (query : String)
    (user_id : Option String) (agent_id : Option String) (limit : Int) :
    PyVal × List RemoteCall :=
  if !self.enabled then
    (PyVal.list [], [])
  else
    match self.client with
    | Option.none => (PyVal.list [], [])
    | Option.some c =>
        let filters0 : PyDict := []
        let filters1 : PyDict :=
          if pyTruthyStr user_id then dictSet filters0 "user_id" (pyOptStr user_id)
          else filters0
        let filters : PyDict :=
          if pyTruthyStr agent_id then dictSet filters1 "agent_id" (pyOptStr agent_id)
          else filters1
        let call := RemoteCall.search query agent_id limit
          [("user_id", pyOptStr user_id)]
        match c.respond call with
        | Except.error _ => (PyVal.list [], [call])
        | Except.ok result =>
            let memories :=
              match result with
              | PyVal.dict kvs =>
                  match dictGet kvs "results" with
                  | Option.some v => v
                  | Option.none => PyVal.list []
              | _ => PyVal.list []
            match pyLen memories with
            | Option.none => (PyVal.list [], [call])
            | Option.some _ => (memories, [call])

/-- The outcome of `MemoryClient.add`: the boolean return value, the remote
    calls performed, and the post-call contents of the caller's metadata
    argument (which the code may mutate in place through the
    `add_metadata = metadata or {}` alias). -/
structure AddOutcome where
  result : Bool
  trace : List RemoteCall
  callerMeta : Option PyDict

/-- `MemoryClient.add`.  `add_metadata = metadata or {}` aliases the caller's
    dict exactly when the caller passed a non-empty dict, so the in-place
    `add_metadata["agent_id"] = agent_id` mutation is visible to the caller
    exactly in that case; the mutation happens before the remote call. -/
def MemoryClient.add (self : MemoryClient) (messages : List Message)
    (user_id : Option String) (agent_id : Option String)
    (metadata : Option PyDict) : AddOutcome :=
  if !self.enabled then
    { result := false, trace := [], callerMeta := metadata }
  else
    let base : PyDict :=
      match metadata with
      | Option.some m => m
      | Option.none => []
    let add_metadata : PyDict :=
      match agent_id with
      | Option.some a => if a != "" then dictSet base "agent_id" (PyVal.str a)
          else base
      | Option.none => base
    let callerAfter : Option PyDict :=
      match metadata with
      | Option.some [] => Option.some []
      | Option.some (_ :: _) => Option.some add_metadata
      | Option.none => Option.none
    match self.client with
    | Option.none => { result := false, trace := [], callerMeta := callerAfter }
    | Option.some c =>
        let call := RemoteCall.add messages user_id add_metadata
        match c.respond call with
        | Except.error _ =>
            { result := false, trace := [call], callerMeta := callerAfter }
        | Except.ok _ =>
            { result := true, trace := [call], callerMeta := callerAfter }

/-- `MemoryClient.get_all`.  The local `filters` dict holding `agent_id` is
    built exactly as in the source and — as in the source — never passed to
    the remote call, which receives only `user_id` and `limit`. -/
def MemoryClient.get_all (self : MemoryClient) (user_id : Option String)
    (agent_id : Option String) (limit : Int) :
    List PyVal × List RemoteCall :=
  if !self.enabled then
    ([], [])
  else
    match self.client with
    | Option.none => ([], [])
    | Option.some c =>
        let filters : PyDict :=
          if pyTruthyStr agent_id then [("agent_id", pyOptStr agent_id)]
          else []
        let call := RemoteCall.get_all user_id limit
        match c.respond call with
        | Except.error _ => ([], [call])
        | Except.ok result =>
            let memories : List PyVal :=
              match result with
              | PyVal.list xs => xs
              | _ => []
            (memories, [call])

/-- `MemoryClient.delete`. -/
def MemoryClient.delete (self : MemoryClient) (memory_id : String) :
    Bool × List RemoteCall :=
  if !self.enabled then
    (false, [])
  else
    match self.client with
    | Option.none => (false, [])
    | Option.some c =>
        let call := RemoteCall.delete memory_id
        match c.respond call with
        | Except.error _ => (false, [call])
        | Except.ok _ => (true, [call])

/-- `get_memory_client`: the module-level singleton accessor, with the global
    `_memory_client` variable threaded explicitly.  Returns the gateway handed
    to the caller and the new value of the global. -/
def get_memory_client (env : InitEnv) (g : Option MemoryClient) :
    MemoryClient × Option MemoryClient :=
  match g with
  | Option.none =>
      let c := MemoryClient.init env Option.none
      (c, Option.some c)
  | Option.some c => (c, Option.some c)

/-- `Except.isOk` as a plain Bool, for stating "client construction succeeded". -/
def isOk {ε α : Type} (r : Except ε α) : Bool :=
  match r with
  | Except.ok _ => true
  | Except.error _ => false

/-- A remote client that answers every call with an empty results envelope. -/
def okClient : Mem0Client :=
  { respond := fun _ => Except.ok (PyVal.dict [("results", PyVal.list [])]) }

/-- A remote client whose every call raises. -/
def failClient : Mem0Client :=
  { respond := fun _ => Except.error "network unreachable" }

/-- An enabled gateway holding the given remote client. -/
def enabledGateway (c : Mem0Client) : MemoryClient :=
  { api_key := Option.some "k", enabled := true, client := Option.some c }

/-- A gateway constructed without credentials: permanently disabled. -/
def disabledGateway : MemoryClient :=
  { api_key := Option.none, enabled := false, client := Option.none }

/-- A construction environment where everything succeeds. -/
def demoEnv : InitEnv :=
  { mem0_available := true
    config_MEMO_API_KEY := Option.some "k"
    mk_client := fun _ => Except.ok okClient }

/-- Setting a key in a dict makes it retrievable. -/
theorem dictGet_dictSet_self (d : PyDict) (k : String) (v : PyVal) :
    dictGet (dictSet d k v) k = Option.some v := by
  induction d with
  | nil => simp [dictSet, dictGet]
  | cons hd tl ih =>
      obtain ⟨k', v'⟩ := hd
      by_cases h : k' = k
      · simp [dictSet, dictGet, h]
      · simp [dictSet, dictGet, h, ih]

/-- C1: when the gateway is disabled, `search` and `get_all` return the empty
sequence, `add` and `delete` return `false`, and no remote call is made
(every trace is empty). -/
theorem disabled_ops_inert
    (m : MemoryClient) (h : m.enabled = false)
    (query : String) (user_id agent_id : Option String) (limit : Int)
    (messages : List Message) (metadata : Option PyDict) (memory_id : String) :
    m.search query user_id agent_id limit = (PyVal.list [], []) ∧
    m.get_all user_id agent_id limit = ([], []) ∧
    (m.add messages user_id agent_id metadata).result = false ∧
    (m.add messages user_id agent_id metadata).trace = [] ∧
    m.delete memory_id = (false, []) := by
  simp [MemoryClient.search, MemoryClient.get_all, MemoryClient.add,
    MemoryClient.delete, h]

theorem disabled_ops_inert_witness :
    disabledGateway.search "q" (Option.some "u") (Option.some "a") 5 =
      (PyVal.list [], []) ∧
    disabledGateway.get_all (Option.some "u") (Option.some "a") 100 = ([], []) ∧
    (disabledGateway.add [⟨"user", "hi"⟩] (Option.some "u") (Option.some "a")
      Option.none).result = false ∧
    (disabledGateway.add [⟨"user", "hi"⟩] (Option.some "u") (Option.some "a")
      Option.none).trace = [] ∧
    disabledGateway.delete "m1" = (false, []) :=
  disabled_ops_inert disabledGateway rfl "q" (Option.some "u") (Option.some "a")
    5 [⟨"user", "hi"⟩] Option.none "m1"

/-- C2: against a remote client whose every call raises, no operation
propagates the exception: `search` and `get_all` return the empty sequence,
`add` and `delete` return `false`.  (That no operation can raise at all is
built into the embedding: each operation has a plain, non-`Except` return
type because its body is wrapped in `try/except Exception`.) -/
theorem ops_absorb_remote_failures
    (m : MemoryClient) (c : Mem0Client) (e : String)
    (hc : m.client = Option.some c)
    (hfail : ∀ call, c.respond call = Except.error e)
    (query : String) (user_id agent_id : Option String) (limit : Int)
    (messages : List Message) (metadata : Option PyDict) (memory_id : String) :
    (m.search query user_id agent_id limit).1 = PyVal.list [] ∧
    (m.get_all user_id agent_id limit).1 = [] ∧
    (m.add messages user_id agent_id metadata).result = false ∧
    (m.delete memory_id).1 = false := by
  cases he : m.enabled <;>
    simp [MemoryClient.search, MemoryClient.get_all, MemoryClient.add,
      MemoryClient.delete, he, hc, hfail]

theorem ops_absorb_remote_failures_witness :
    ((enabledGateway failClient).search "q" (Option.some "u") Option.none 5).1 =
      PyVal.list [] ∧
    ((enabledGateway failClient).get_all (Option.some "u") Option.none 100).1 =
      [] ∧
    ((enabledGateway failClient).add [⟨"user", "hi"⟩] (Option.some "u")
      Option.none Option.none).result = false ∧
    ((enabledGateway failClient).delete "m1").1 = false :=
  ops_absorb_remote_failures (enabledGateway failClient) failClient
    "network unreachable" rfl (fun _ => rfl) "q" (Option.some "u") Option.none
    5 [⟨"user", "hi"⟩] Option.none "m1"

/-- C7: every single invocation of an operation performs at most one remote
call, for every gateway state and every remote-client behaviour (in
particular there is no retry after a failed call). -/
theorem ops_at_most_one_remote_call
    (m : MemoryClient) (query : String) (user_id agent_id : Option String)
    (limit : Int) (messages : List Message) (metadata : Option PyDict)
    (memory_id : String) :
    (m.search query user_id agent_id limit).2.length ≤ 1 ∧
    (m.add messages user_id agent_id metadata).trace.length ≤ 1 ∧
    (m.get_all user_id agent_id limit).2.length ≤ 1 ∧
    (m.delete memory_id).2.length ≤ 1 := by
  refine ⟨?_, ?_, ?_, ?_⟩
  · unfold MemoryClient.search
    repeat' first
      | rfl
      | simp
      | split
  · unfold MemoryClient.add
    repeat' first
      | rfl
      | simp
      | split
  · unfold MemoryClient.get_all
    repeat' first
      | rfl
      | simp
      | split
  · unfold MemoryClient.delete
    repeat' first
      | rfl
      | simp
      | split

/-- C10: the result of `get_all` (both its return value and the remote calls
it makes) is independent of the `agent_id` argument: the locally built
`filters` dict holding the agent identifier is never passed to the remote
`get_all` call. -/
theorem get_all_ignores_agent_id
    (m : MemoryClient) (user_id : Option String) (limit : Int)
    (a₁ a₂ : Option String) :
    m.get_all user_id a₁ limit = m.get_all user_id a₂ limit := rfl

/-- C3 counterexample: with an enabled gateway and the agent identifier "a"
provided, the filter mapping actually passed to the remote search call is
`{"user_id": "u"}`, which does not contain the agent identifier — so the
claim's "filters contain the agent identifier iff it was provided" fails
(the agent identifier goes into a separate `agent_id` parameter instead). -/
theorem search_filters_omit_agent_counterexample :
    ((enabledGateway okClient).search "q" (Option.some "u") (Option.some "a")
        5).2 =
      [RemoteCall.search "q" (Option.some "a") 5
        [("user_id", PyVal.str "u")]] ∧
    dictHasKey [("user_id", PyVal.str "u")] "agent_id" = false := by
  constructor
  · rfl
  · rfl

/-- C3 amended: for every enabled gateway with a live client, the remote
search call receives `filters = {"user_id": user_id}` unconditionally (the
`user_id` key is present even when no user identifier was provided, bound to
None), and the agent identifier is never placed in the filter mapping — it is
passed only as the separate `agent_id` parameter of the remote call. -/
theorem search_remote_call_shape
    (m : MemoryClient) (c : Mem0Client) (he : m.enabled = true)
    (hc : m.client = Option.some c)
    (query : String) (user_id agent_id : Option String) (limit : Int) :
    (m.search query user_id agent_id limit).2 =
      [RemoteCall.search query agent_id limit
        [("user_id", pyOptStr user_id)]] := by
  unfold MemoryClient.search
  rw [he, hc]
  repeat' first
    | rfl
    | simp
    | split

theorem search_remote_call_shape_witness :
    ((enabledGateway okClient).search "q" Option.none (Option.some "a") 5).2 =
      [RemoteCall.search "q" (Option.some "a") 5
        [("user_id", pyOptStr Option.none)]] :=
  search_remote_call_shape (enabledGateway okClient) okClient rfl rfl "q"
    Option.none (Option.some "a") 5

/-- C4: construction is total (never raises), and afterwards `enabled` is true
iff the mem0 library imported, the resolved API key (explicit argument or the
configured fallback) is truthy (present and non-empty), and construction of
the remote client succeeded; whenever `enabled` is false the held client is
None. -/
theorem init_enabled_iff (env : InitEnv) (api_key : Option String) :
    ((MemoryClient.init env api_key).enabled = true ↔
      (env.mem0_available = true ∧
        pyTruthyStr (resolveApiKey env api_key) = true ∧
        isOk (env.mk_client (resolveApiKey env api_key)) = true)) ∧
    ((MemoryClient.init env api_key).enabled = false →
      (MemoryClient.init env api_key).client = Option.none) := by
  cases ha : env.mem0_available
  · simp [MemoryClient.init, ha]
  · cases hk : pyTruthyStr (resolveApiKey env api_key)
    · simp [MemoryClient.init, ha, hk]
    · cases hm : env.mk_client (resolveApiKey env api_key) <;>
        simp [MemoryClient.init, ha, hk, hm, isOk]

theorem init_enabled_iff_witness :
    ((MemoryClient.init demoEnv Option.none).enabled = true ↔
      (demoEnv.mem0_available = true ∧
        pyTruthyStr (resolveApiKey demoEnv Option.none) = true ∧
        isOk (demoEnv.mk_client (resolveApiKey demoEnv Option.none)) = true)) ∧
    ((MemoryClient.init demoEnv Option.none).enabled = false →
      (MemoryClient.init demoEnv Option.none).client = Option.none) :=
  init_enabled_iff demoEnv Option.none

/-- C5: for an enabled gateway whose remote search call returns `v`, `search`
returns the sequence stored under the "results" key when `v` is a mapping
holding a sequence there, and returns the empty sequence when `v` is not a
mapping or is a mapping without a "results" key. -/
theorem search_extracts_results_key
    (m : MemoryClient) (c : Mem0Client) (he : m.enabled = true)
    (hc : m.client = Option.some c)
    (query : String) (user_id agent_id : Option String) (limit : Int)
    (v : PyVal)
    (hr : c.respond (RemoteCall.search query agent_id limit
        [("user_id", pyOptStr user_id)]) = Except.ok v) :
    (∀ kvs xs, v = PyVal.dict kvs →
        dictGet kvs "results" = Option.some (PyVal.list xs) →
        (m.search query user_id agent_id limit).1 = PyVal.list xs) ∧
    ((∀ kvs, v ≠ PyVal.dict kvs) →
        (m.search query user_id agent_id limit).1 = PyVal.list []) ∧
    (∀ kvs, v = PyVal.dict kvs → dictGet kvs "results" = Option.none →
        (m.search query user_id agent_id limit).1 = PyVal.list []) := by
  refine ⟨?_, ?_, ?_⟩
  · intro kvs xs hv hres
    subst hv
    simp [MemoryClient.search, he, hc, hr, hres, pyLen]
  · intro hnv
    cases v with
    | dict kvs => exact absurd rfl (hnv kvs)
    | none => simp [MemoryClient.search, he, hc, hr, pyLen]
    | bool b => simp [MemoryClient.search, he, hc, hr, pyLen]
    | int n => simp [MemoryClient.search, he, hc, hr, pyLen]
    | str s => simp [MemoryClient.search, he, hc, hr, pyLen]
    | list xs => simp [MemoryClient.search, he, hc, hr, pyLen]
  · intro kvs hv hres
    subst hv
    simp [MemoryClient.search, he, hc, hr, hres, pyLen]

theorem search_extracts_results_key_witness :
    (∀ kvs xs, PyVal.dict [("results", PyVal.list [])] = PyVal.dict kvs →
        dictGet kvs "results" = Option.some (PyVal.list xs) →
        ((enabledGateway okClient).search "q" Option.none Option.none 5).1 =
          PyVal.list xs) ∧
    ((∀ kvs, PyVal.dict [("results", PyVal.list [])] ≠ PyVal.dict kvs) →
        ((enabledGateway okClient).search "q" Option.none Option.none 5).1 =
          PyVal.list []) ∧
    (∀ kvs, PyVal.dict [("results", PyVal.list [])] = PyVal.dict kvs →
        dictGet kvs "results" = Option.none →
        ((enabledGateway okClient).search "q" Option.none Option.none 5).1 =
          PyVal.list []) :=
  search_extracts_results_key (enabledGateway okClient) okClient rfl rfl "q"
    Option.none Option.none 5 (PyVal.dict [("results", PyVal.list [])]) rfl

/-- C6: for an enabled gateway with a live client, the metadata submitted to
the remote add call is the provided metadata (empty mapping when none was
provided) with "agent_id" bound to the agent identifier when a non-empty one
was given, and exactly the provided metadata (empty mapping when none) when
no agent identifier was given. -/
theorem add_submitted_metadata
    (m : MemoryClient) (c : Mem0Client) (he : m.enabled = true)
    (hc : m.client = Option.some c)
    (messages : List Message) (user_id : Option String)
    (metadata : Option PyDict) :
    (∀ a, a ≠ "" →
      (m.add messages user_id (Option.some a) metadata).trace =
        [RemoteCall.add messages user_id
          (dictSet (metadata.getD []) "agent_id" (PyVal.str a))]) ∧
    ((m.add messages user_id Option.none metadata).trace =
      [RemoteCall.add messages user_id (metadata.getD [])]) := by
  constructor
  · intro a ha
    unfold MemoryClient.add
    rw [he, hc]
    cases metadata <;>
      simp [ha] <;>
      repeat' first
        | rfl
        | simp
        | split
  · unfold MemoryClient.add
    rw [he, hc]
    cases metadata <;>
      repeat' first
        | rfl
        | simp
        | split

theorem add_submitted_metadata_witness :
    (∀ a, a ≠ "" →
      ((enabledGateway okClient).add [⟨"user", "hi"⟩] (Option.some "u")
          (Option.some a) (Option.some [("x", PyVal.str "y")])).trace =
        [RemoteCall.add [⟨"user", "hi"⟩] (Option.some "u")
          (dictSet ((Option.some [("x", PyVal.str "y")]).getD []) "agent_id"
            (PyVal.str a))]) ∧
    (((enabledGateway okClient).add [⟨"user", "hi"⟩] (Option.some "u")
        Option.none (Option.some [("x", PyVal.str "y")])).trace =
      [RemoteCall.add [⟨"user", "hi"⟩] (Option.some "u")
        ((Option.some [("x", PyVal.str "y")]).getD [])]) :=
  add_submitted_metadata (enabledGateway okClient) okClient rfl rfl
    [⟨"user", "hi"⟩] (Option.some "u") (Option.some [("x", PyVal.str "y")])

/-- C8: the accessor constructs at most once — after any call the global
holds exactly the returned instance, a further call (under any environment)
returns that identical instance and leaves the global unchanged, a first call
on an empty global returns the freshly constructed gateway, and a call on a
populated global returns the stored instance without constructing. -/
theorem get_memory_client_singleton
    (env₁ env₂ : InitEnv) (g : Option MemoryClient) :
    (get_memory_client env₁ g).2 =
      Option.some (get_memory_client env₁ g).1 ∧
    get_memory_client env₂ (get_memory_client env₁ g).2 =
      get_memory_client env₁ g ∧
    (g = Option.none →
      (get_memory_client env₁ g).1 = MemoryClient.init env₁ Option.none) ∧
    (∀ c, g = Option.some c → (get_memory_client env₁ g).1 = c) := by
  cases g <;> simp [get_memory_client]

theorem get_memory_client_singleton_witness :
    (get_memory_client demoEnv Option.none).2 =
      Option.some (get_memory_client demoEnv Option.none).1 ∧
    get_memory_client demoEnv (get_memory_client demoEnv Option.none).2 =
      get_memory_client demoEnv Option.none ∧
    (Option.none = (Option.none : Option MemoryClient) →
      (get_memory_client demoEnv Option.none).1 =
        MemoryClient.init demoEnv Option.none) ∧
    (∀ c, (Option.none : Option MemoryClient) = Option.some c →
      (get_memory_client demoEnv Option.none).1 = c) :=
  get_memory_client_singleton demoEnv demoEnv Option.none

/-- C9: for an enabled gateway, calling `add` with a non-empty metadata dict
and a non-empty agent identifier mutates the caller's dict in place through
the `add_metadata = metadata or {}` alias: after the call the caller's dict
is the original extended with "agent_id" bound to the agent identifier, and
in particular looking up "agent_id" in it yields that identifier. -/
theorem add_mutates_caller_metadata
    (m : MemoryClient) (he : m.enabled = true)
    (messages : List Message) (user_id : Option String)
    (a : String) (ha : a ≠ "") (k : String) (v : PyVal) (md : PyDict) :
    (m.add messages user_id (Option.some a)
        (Option.some ((k, v) :: md))).callerMeta =
      Option.some (dictSet ((k, v) :: md) "agent_id" (PyVal.str a)) ∧
    dictGet (dictSet ((k, v) :: md) "agent_id" (PyVal.str a)) "agent_id" =
      Option.some (PyVal.str a) := by
  constructor
  · unfold MemoryClient.add
    rw [he]
    simp [ha]
    repeat' first
      | rfl
      | simp
      | split
  · exact dictGet_dictSet_self _ _ _

theorem add_mutates_caller_metadata_witness :
    ((enabledGateway okClient).add [⟨"user", "hi"⟩] (Option.some "u")
        (Option.some "agent-1")
        (Option.some (("x", PyVal.str "y") :: []))).callerMeta =
      Option.some (dictSet (("x", PyVal.str "y") :: []) "agent_id"
        (PyVal.str "agent-1")) ∧
    dictGet (dictSet (("x", PyVal.str "y") :: []) "agent_id"
        (PyVal.str "agent-1")) "agent_id" =
      Option.some (PyVal.str "agent-1") :=
  add_mutates_caller_metadata (enabledGateway okClient) rfl [⟨"user", "hi"⟩]
    (Option.some "u") "agent-1" (by decide) "x" (PyVal.str "y") []

end Suna.Memory
